import Mathlib

/-
Verification of the model-registry and retrain subsystem
(src/src/registry.py and src/src/retrain.py) against its specification.

Shallow embedding conventions:
- Python floats are modelled as exact rationals (ℚ); metric documents keep
  only their numeric fields and the optional "validation" sub-document,
  which are the only parts the code reads.
- Timestamps are abstract Nat ticks supplied by the caller (datetime.now).
- The registry directory tree is a RegistryState; each operation returns the
  state observed when it finished (also on the error path, matching the
  partial mutations a Python exception leaves behind) together with the list
  of file writes it performed, so that the write mechanism (in-place vs
  temp-file-then-rename) is itself part of the model.
- Content hashes (compute_hashes) are omitted: file bytes are not modelled
  and no property below refers to them.
-/

namespace Datathon

/-- A metrics document (a JSON object).  Only the numeric top-level entries
and the optional "validation" sub-document are modelled, because
`get_metric` in retrain.py reads nothing else. -/
structure MetricsDoc where
  entries : List (String × ℚ)
  validation : Option (List (String × ℚ))
deriving DecidableEq

/-- Key lookup in a JSON object (`key in d` followed by `d[key]`). -/
def lookupKey (l : List (String × ℚ)) (k : String) : Option ℚ :=
  (l.find? (fun p => p.1 == k)).map (fun p => p.2)

/-- `get_metric` from retrain.py lines 65-70: top-level key first, then the
"validation" sub-document, else the supplied default. -/
def get_metric (d : MetricsDoc) (key : String) (default : ℚ) : ℚ :=
  match lookupKey d.entries key with
  | some v => v
  | none =>
    match d.validation with
    | some vd =>
      match lookupKey vd key with
      | some v => v
      | none => default
    | none => default

/-- Python truthiness of the metrics dict (`if champion_metrics:`):
nonempty.  A document carrying only non-numeric keys is not representable
here; the code never stores one. -/
def MetricsDoc.truthy (d : MetricsDoc) : Bool :=
  !d.entries.isEmpty || d.validation.isSome

/-- retrain.py line 30. -/
def RECALL_DELTA_MAX : ℚ := 0.02
/-- retrain.py line 31. -/
def PRECISION_DELTA_MAX : ℚ := 0.05
/-- retrain.py line 32. -/
def BRIER_DELTA_MAX : ℚ := 0.02
/-- retrain.py line 33. -/
def MIN_VALIDATION_SAMPLES : Nat := 500

/-- Three-digit zero padding for the fractional part of `fmt3`. -/
def natPad3 (n : Nat) : String :=
  if n < 10 then "00" ++ toString n
  else if n < 100 then "0" ++ toString n
  else toString n

/-- Fixed-point rendering with three decimals, the model of Python's
`f"{x:.3f}"` on the exact rational value. -/
def fmt3 (q : ℚ) : String :=
  let a : ℚ := |q|
  let m : Nat := ((2000 * a.num + (a.den : Int)) / (2 * (a.den : Int))).toNat
  (if q < 0 then "-" else "") ++ toString (m / 1000) ++ "." ++ natPad3 (m % 1000)

/-- retrain.py line 86. -/
def recallMsg (chall champ : ℚ) : String :=
  "Recall caiu demais: " ++ (fmt3 chall ++ " vs " ++ fmt3 champ ++ " (delta > 0.02)")

/-- retrain.py line 89. -/
def precisionMsg (chall champ : ℚ) : String :=
  "Precision caiu demais: " ++ (fmt3 chall ++ " vs " ++ fmt3 champ)

/-- retrain.py line 92. -/
def brierMsg (chall champ : ℚ) : String :=
  "Brier piorou: " ++ (fmt3 chall ++ " vs " ++ fmt3 champ)

/-- retrain.py line 95. -/
def aucMsg (chall champ : ℚ) : String :=
  "AUC pior: " ++ (fmt3 chall ++ " vs " ++ fmt3 champ)

/-- retrain.py line 100. -/
def approvedMsg (rc auc : ℚ) : String :=
  "Challenger aprovado (recall=" ++ (fmt3 rc ++ ", auc=" ++ fmt3 auc ++ ")")

/-- Python's `"; ".join(reasons)` (retrain.py line 98). -/
def joinSemicolon : List String → String
  | [] => ""
  | [m] => m
  | m :: rest => m ++ "; " ++ joinSemicolon rest

/-- The `reasons` list accumulated by `compare_metrics` (retrain.py lines
84-95): each guardrail appends its message, none short-circuits. -/
def reasonsList (challenger champion : MetricsDoc) : List String :=
  (if get_metric champion "recall" 0.75 - get_metric challenger "recall" 0.0 > RECALL_DELTA_MAX
   then [recallMsg (get_metric challenger "recall" 0.0) (get_metric champion "recall" 0.75)] else []) ++
  (if get_metric champion "precision" 0.4 - get_metric challenger "precision" 0.0 > PRECISION_DELTA_MAX
   then [precisionMsg (get_metric challenger "precision" 0.0) (get_metric champion "precision" 0.4)] else []) ++
  (if get_metric challenger "brier_score" 1.0 - get_metric champion "brier_score" 0.15 > BRIER_DELTA_MAX
   then [brierMsg (get_metric challenger "brier_score" 1.0) (get_metric champion "brier_score" 0.15)] else []) ++
  (if get_metric challenger "roc_auc" 0.0 < get_metric champion "roc_auc" 0.8
   then [aucMsg (get_metric challenger "roc_auc" 0.0) (get_metric champion "roc_auc" 0.8)] else [])

/-- `compare_metrics` from retrain.py lines 52-100. -/
def compare_metrics (challenger champion : MetricsDoc) : Bool × String :=
  let reasons := reasonsList challenger champion
  if reasons.isEmpty then
    (true, approvedMsg (get_metric challenger "recall" 0.0) (get_metric challenger "roc_auc" 0.0))
  else
    (false, joinSemicolon reasons)

/-- Case-insensitive substring containment, used to state that a reason
string "mentions" a guardrail keyword. -/
def mentionsB (s sub : String) : Bool :=
  ((s.data.map Char.toLower).tails).any (fun t => (sub.data.map Char.toLower).isPrefixOf t)

/-- registry.py lines 25-30. -/
def REQUIRED_ARTIFACTS : List String :=
  ["model.joblib", "model_metadata.json", "model_signature.json", "metrics.json"]

/-- registry.py lines 32-36. -/
def REQUIRED_BASELINE : List String :=
  ["feature_profile.json", "score_profile.json", "baseline_metadata.json"]

/-- Fuel-driven model of Python's `str.replace` (all non-overlapping
occurrences, scanning left to right); fuel is instantiated with the length
of the subject so it never runs out. -/
def replaceFuel (pat rep : List Char) : Nat → List Char → List Char
  | 0, l => l
  | _ + 1, [] => []
  | fuel + 1, c :: rest =>
    if pat.isPrefixOf (c :: rest) then rep ++ replaceFuel pat rep fuel ((c :: rest).drop pat.length)
    else c :: replaceFuel pat rep fuel rest

/-- Python `s.replace(pat, rep)` for nonempty `pat`. -/
def strReplace (s pat rep : String) : String :=
  ⟨replaceFuel pat.data rep.data s.data.length s.data⟩

/-- Python `s.split(".")[0]`. -/
def splitHeadDot (s : String) : String :=
  ⟨s.data.takeWhile (fun c => c != '.')⟩

/-- Python `"." in s` for a single character. -/
def strContainsChar (s : String) (c : Char) : Bool :=
  s.data.contains c

/-- Python `s.startswith(p)`, modelling the glob `f"{pattern}*"`. -/
def strPrefixOf (p s : String) : Bool :=
  p.data.isPrefixOf s.data

/-- One iteration of the loop in `validate_artifacts` (registry.py lines
58-77): the artifact counts as found when one of the accepted name variants
is present, or — fallback — when any file name starts with the part of the
artifact name before the first dot. -/
def artifactFound (files : List String) (artifact : String) : Bool :=
  let base_name := strReplace (strReplace artifact "model_" "") "model." ""
  let possible_names : List String :=
    [artifact,
     strReplace artifact "model" "model_v1",
     if strContainsChar artifact '.' then "model_v1." ++ base_name
     else "model_" ++ base_name ++ "_v1.json"]
  if possible_names.any (fun n => files.contains n) then true
  else
    files.any (fun f => strPrefixOf (splitHeadDot artifact) f)

/-- `validate_artifacts` from registry.py lines 53-79: the list of required
artifacts reported missing, in declaration order. -/
def validate_artifacts (files : List String) : List String :=
  REQUIRED_ARTIFACTS.filter (fun a => !(artifactFound files a))

/-- `artifact_mapping` from registry.py lines 145-150: canonical target name
and the source-name candidates tried in order. -/
def artifact_mapping : List (String × List String) :=
  [("model.joblib", ["model_v1.joblib", "model.joblib"]),
   ("model_metadata.json", ["model_metadata_v1.json", "model_metadata.json"]),
   ("model_signature.json", ["model_signature_v1.json", "model_signature.json"]),
   ("metrics.json", ["metrics_v1.json", "metrics.json"])]

/-- The canonical artifact names that `register_model` actually copies from
a given source directory (registry.py lines 152-161). -/
def copiedArtifacts (files : List String) : List String :=
  (artifact_mapping.filter (fun p => p.2.any (fun c => files.contains c))).map (fun p => p.1)

/-- The source directory handed to `register_model`: the file names it
contains, plus the parsed content of its metrics document (the only file
whose content the pipeline reads back). -/
structure ArtifactsDir where
  files : List String
  metricsJson : Option MetricsDoc
deriving DecidableEq

/-- A version's `manifest.json` (registry.py lines 175-184).  Content
hashes are not modelled (file bytes are outside the model). -/
structure Manifest where
  version : String
  created_at : Nat
  promoted_by : String
  manifestNotes : String
  status : String
  artifacts : List String
  has_baseline : Bool
  promoted_at : Option Nat
  rejection_reason : Option String
deriving DecidableEq

/-- `champion.json`, the ChampionPointer (registry.py lines 232-237). -/
structure ChampionFile where
  version : String
  promoted_at : Nat
  promoted_by : String
  previous_champion : Option String
deriving DecidableEq

/-- One rollback log document (registry.py lines 283-288). -/
structure RollbackEntry where
  timestamp : Nat
  from_version : Option String
  to_version : String
  reason : String
deriving DecidableEq

/-- One `registry/<version>/` directory: its top-level artifact files (the
manifest is kept apart), the parsed metrics.json content when stored, and
the monitoring-baseline files copied into `monitoring_baseline/`. -/
structure VersionDir where
  files : List String
  manifest : Option Manifest
  metricsJson : Option MetricsDoc
  baselineFiles : List String
deriving DecidableEq

/-- The registry directory tree. -/
structure RegistryState where
  versions : String → Option VersionDir
  champion : Option ChampionFile
  rollbackLog : List RollbackEntry

/-- The empty registry directory. -/
def emptyRegistry : RegistryState :=
  { versions := fun _ => none, champion := none, rollbackLog := [] }

/-- Point a version name at a directory (creating or overwriting it). -/
def updV (f : String → Option VersionDir) (v : String) (d : VersionDir) :
    String → Option VersionDir :=
  fun x => if x = v then some d else f x

/-- A single file write performed against the registry, keeping track of the
mechanism used.  The source only ever emits `copy` (shutil.copy2) and
`direct` (`open(path, "w")` followed by `json.dump`, i.e. truncate and
write in place); `tempRename` (write a temporary file, rename it over the
target) exists in the model solely so that the atomic-write property can be
stated. -/
inductive FsWrite where
  | copy (path : String)
  | direct (path : String)
  | tempRename (path : String)
deriving DecidableEq

/-- Whether a write uses the temp-file-and-rename mechanism. -/
def FsWrite.isTempRename : FsWrite → Bool
  | .tempRename _ => true
  | _ => false

/-- The error taxonomy raised by the registry operations. -/
inductive RegErr where
  | artifactsDirNotFound
  | incompleteBundle (missing : List String)
  | versionNotFound (version : String)
  | missingManifest (version : String)
deriving DecidableEq

/-- Outcome of a registry operation: the resulting state (on the error path,
the state at the moment the exception was raised — Python leaves partial
mutations behind) and the file writes performed. -/
inductive OpResult where
  | ok (st : RegistryState) (writes : List FsWrite)
  | err (e : RegErr) (st : RegistryState) (writes : List FsWrite)

/-- The state an operation left behind. -/
def OpResult.state : OpResult → RegistryState
  | .ok st _ => st
  | .err _ st _ => st

/-- The writes an operation performed. -/
def OpResult.writes : OpResult → List FsWrite
  | .ok _ w => w
  | .err _ _ w => w

/-- Did the operation succeed? -/
def OpResult.isOk : OpResult → Bool
  | .ok _ _ => true
  | .err _ _ _ => false

/-- The error raised, if any. -/
def OpResult.error? : OpResult → Option RegErr
  | .ok _ _ => none
  | .err e _ _ => some e

/-- The metrics.json content stored by `register_model`: the metrics
document copied from the source directory, when one is present under either
accepted name (registry.py line 149). -/
def storedMetrics (ad : ArtifactsDir) : Option MetricsDoc :=
  if ad.files.contains "metrics_v1.json" || ad.files.contains "metrics.json" then ad.metricsJson
  else none

/-- The monitoring-baseline files copied by `register_model` (registry.py
lines 163-172). -/
def baselineFilesCopied (baseline : Option (List String)) : List String :=
  match baseline with
  | some bfiles => REQUIRED_BASELINE.filter (fun b => bfiles.contains b)
  | none => []

/-- The manifest `register_model` writes (registry.py lines 175-184). -/
def registeredManifest (version : String) (ad : ArtifactsDir) (bl : Option (List String))
    (now : Nat) (nts pb : String) : Manifest :=
  { version := version, created_at := now, promoted_by := pb, manifestNotes := nts,
    status := "registered", artifacts := copiedArtifacts ad.files,
    has_baseline := !(baselineFilesCopied bl).isEmpty,
    promoted_at := none, rejection_reason := none }

/-- The version directory `register_model` creates on success (registry.py
lines 142-188): the canonically renamed artifacts plus a fresh manifest with
`status="registered"`. -/
def registeredDir (version : String) (ad : ArtifactsDir) (bl : Option (List String))
    (now : Nat) (nts pb : String) : VersionDir :=
  { files := copiedArtifacts ad.files
    manifest := some (registeredManifest version ad bl now nts pb)
    metricsJson := storedMetrics ad
    baselineFiles := baselineFilesCopied bl }

/-- The file writes `register_model` performs on success, in program order:
the artifact copies, the baseline copies, then the in-place manifest write. -/
def registerWrites (version : String) (ad : ArtifactsDir) (bl : Option (List String)) : List FsWrite :=
  ((copiedArtifacts ad.files).map (fun n => FsWrite.copy (version ++ "/" ++ n))) ++
  ((baselineFilesCopied bl).map (fun n => FsWrite.copy (version ++ "/monitoring_baseline/" ++ n))) ++
  [FsWrite.direct (version ++ "/manifest.json")]

/-- The registry state after a successful registration: the version name
now points at the freshly created directory (overwriting any previous
directory of that name). -/
def registerState (version : String) (ad : ArtifactsDir) (bl : Option (List String))
    (st : RegistryState) (now : Nat) (nts pb : String) : RegistryState :=
  { st with versions := updV st.versions version (registeredDir version ad bl now nts pb) }

/-- `register_model` from registry.py lines 103-191.  An existing version
directory is silently overwritten after a logged warning (lines 138-140);
validation happens before anything is created, so a validation failure
stores nothing. -/
def register_model (version : String) (artifacts : Option ArtifactsDir)
    (baseline : Option (List String)) (st : RegistryState) (now : Nat)
    (manifestNotes : String) (promoted_by : String) : OpResult :=
  match artifacts with
  | none => .err .artifactsDirNotFound st []
  | some ad =>
    let missing := validate_artifacts ad.files
    if !missing.isEmpty then .err (.incompleteBundle missing) st []
    else
      .ok (registerState version ad baseline st now manifestNotes promoted_by)
        (registerWrites version ad baseline)

/-- `get_champion_version` from registry.py lines 194-205. -/
def get_champion_version (st : RegistryState) : Option String :=
  st.champion.map (fun c => c.version)

/-- `promote_champion` from registry.py lines 208-255: checks the version
directory and its manifest, captures the previous pointer, writes the new
`champion.json` in place, then rewrites the promoted version's manifest with
`status="champion"`.  No other version's manifest is touched. -/
def promote_champion (version : String) (st : RegistryState) (now : Nat)
    (promoted_by : String) : OpResult :=
  match st.versions version with
  | none => .err (.versionNotFound version) st []
  | some d =>
    match d.manifest with
    | none => .err (.missingManifest version) st []
    | some m =>
      let old := get_champion_version st
      let cf : ChampionFile :=
        { version := version, promoted_at := now, promoted_by := promoted_by,
          previous_champion := old }
      let m' := { m with status := "champion", promoted_at := some now }
      .ok { st with
            champion := some cf
            versions := updV st.versions version { d with manifest := some m' } }
        [FsWrite.direct "champion.json", FsWrite.direct (version ++ "/manifest.json")]

/-- `rollback_to` from registry.py lines 258-297: VersionNotFound when the
directory is absent; an informational no-op when the target already is the
champion; otherwise one rollback log document is written and the ordinary
promotion runs with `promoted_by = "rollback: " + reason`. -/
def rollback_to (version : String) (st : RegistryState) (now : Nat)
    (reason : String) : OpResult :=
  match st.versions version with
  | none => .err (.versionNotFound version) st []
  | some _ =>
    let current := get_champion_version st
    if current = some version then .ok st []
    else
      let entry : RollbackEntry :=
        { timestamp := now, from_version := current, to_version := version, reason := reason }
      let rbw := FsWrite.direct ("rollback/rollback_" ++ toString now ++ ".json")
      let st1 := { st with rollbackLog := st.rollbackLog ++ [entry] }
      match promote_champion version st1 now ("rollback: " ++ reason) with
      | .ok st2 ws => .ok st2 (rbw :: ws)
      | .err e st2 ws => .err e st2 (rbw :: ws)

/-- The status recorded in a version's manifest, when both exist. -/
def statusOf (st : RegistryState) (v : String) : Option String :=
  ((st.versions v).bind (fun d => d.manifest)).map (fun m => m.status)

/-- `resolve_champion_path` from registry.py lines 324-334: the champion's
version directory, when the pointer exists and the directory does. -/
def resolve_champion_path (st : RegistryState) : Option VersionDir :=
  match get_champion_version st with
  | some v => st.versions v
  | none => none

/-- `load_champion_metrics` from retrain.py lines 36-49: `none` when there
is no champion directory or it holds no metrics.json; a `VersionDir` stores
the parsed metrics.json content exactly when the file exists. -/
def load_champion_metrics (st : RegistryState) : Option MetricsDoc :=
  (resolve_champion_path st).bind (fun d => d.metricsJson)

/-- The error taxonomy of the retrain pipeline. -/
inductive RetrainErr where
  | dataValidationFailed (msg : String)
  | trainingFailed (msg : String)
  | registryErr (e : RegErr)
deriving DecidableEq

/-- The environment of one retrain cycle: the outcomes of the two external
collaborators (schema validation of the training dataset, and the training
subprocess, which on success deposits an artifacts directory), plus the
optional monitoring baseline and the dataset size (the size check at
retrain.py lines 184-185 only logs a warning and changes nothing). -/
structure RetrainEnv where
  dataValidation : Option String
  dataRows : Nat
  training : Except String ArtifactsDir
  baseline : Option (List String)

/-- `run_training`'s result metrics (retrain.py lines 133-142): the parsed
metrics document if the training step left one, else the empty document. -/
def run_training_metrics (ad : ArtifactsDir) : MetricsDoc :=
  if ad.files.contains "metrics_v1.json" || ad.files.contains "metrics.json" then
    ad.metricsJson.getD { entries := [], validation := none }
  else { entries := [], validation := none }

/-- retrain.py line 203 (verbatim source string). -/
def firstModelReason : String := "Primeiro modelo (sem champion para comparar)"

/-- The comparison step of `retrain` (retrain.py lines 197-204): compare
against the champion metrics when they loaded to a truthy document,
otherwise automatic approval. -/
def retrain_verdict (st : RegistryState) (challenger : MetricsDoc) : Bool × String :=
  match load_champion_metrics st with
  | some cm => if cm.truthy then compare_metrics challenger cm else (true, firstModelReason)
  | none => (true, firstModelReason)

/-- The rejected-challenger manifest update (retrain.py lines 227-235). -/
def markRejected (st : RegistryState) (v : String) (reason : String) : RegistryState :=
  match st.versions v with
  | some d =>
    match d.manifest with
    | some m =>
      let m' := { m with status := "rejected", rejection_reason := some reason }
      { st with versions := updV st.versions v { d with manifest := some m' } }
    | none => st
  | none => st

/-- What one call of `retrain` produces.  The Python function returns only
the boolean (`promoted` here; in a dry run it is the approval verdict); the
verdict and reason are logged and stored in the manifest, and are carried
along so the specification can refer to them. -/
structure RetrainResult where
  promoted : Bool
  approved : Bool
  reason : String
  state : RegistryState

/-- `retrain` from retrain.py lines 145-236. -/
def retrain (new_version : String) (env : RetrainEnv) (st : RegistryState)
    (now : Nat) (dry_run : Bool) (force : Bool) : Except RetrainErr RetrainResult :=
  match env.dataValidation with
  | some msg => .error (.dataValidationFailed msg)
  | none =>
    match env.training with
    | .error msg => .error (.trainingFailed msg)
    | .ok ad =>
      let verdict := retrain_verdict st (run_training_metrics ad)
      if dry_run then .ok ⟨verdict.1, verdict.1, verdict.2, st⟩
      else
        match register_model new_version (some ad) env.baseline st now verdict.2 "retrain_pipeline" with
        | .err e _ _ => .error (.registryErr e)
        | .ok st1 _ =>
          if verdict.1 || force then
            match promote_champion new_version st1 now "retrain_pipeline" with
            | .err e _ _ => .error (.registryErr e)
            | .ok st2 _ => .ok ⟨true, verdict.1, verdict.2, st2⟩
          else
            .ok ⟨false, verdict.1, verdict.2, markRejected st1 new_version verdict.2⟩

/-- `main` of retrain.py lines 239-263: `sys.exit(0 if success else 1)`,
where an uncaught exception also terminates the interpreter with a nonzero
status (modelled as 1). -/
def retrain_cli_exit (r : Except RetrainErr RetrainResult) : Nat :=
  match r with
  | .ok res => if res.promoted then 0 else 1
  | .error _ => 1

/-! ## Substring ("mentions") machinery for reason strings -/

lemma strData_append (a b : String) : (a ++ b).data = a.data ++ b.data := rfl

lemma mentionsB_iff (s sub : String) :
    mentionsB s sub = true ↔ (sub.data.map Char.toLower) <:+: (s.data.map Char.toLower) := by
  unfold mentionsB
  rw [List.any_eq_true]
  constructor
  · rintro ⟨t, ht, hp⟩
    rw [List.mem_tails] at ht
    rw [List.isPrefixOf_iff_prefix] at hp
    exact List.infix_iff_prefix_suffix.mpr ⟨t, hp, ht⟩
  · intro h
    obtain ⟨t, hp, ht⟩ := List.infix_iff_prefix_suffix.mp h
    exact ⟨t, (List.mem_tails _ _).mpr ht, List.isPrefixOf_iff_prefix.mpr hp⟩

lemma mentionsB_append_left (a b sub : String) (h : mentionsB a sub = true) :
    mentionsB (a ++ b) sub = true := by
  rw [mentionsB_iff] at h ⊢
  rw [strData_append, List.map_append]
  obtain ⟨u, t, hut⟩ := h
  exact ⟨u, t ++ b.data.map Char.toLower, by rw [← hut]; simp⟩

lemma mentionsB_append_right (a b sub : String) (h : mentionsB b sub = true) :
    mentionsB (a ++ b) sub = true := by
  rw [mentionsB_iff] at h ⊢
  rw [strData_append, List.map_append]
  obtain ⟨u, t, hut⟩ := h
  exact ⟨a.data.map Char.toLower ++ u, t, by rw [← hut]; simp⟩

lemma mentionsB_join (msgs : List String) (m sub : String) (hm : m ∈ msgs)
    (h : mentionsB m sub = true) : mentionsB (joinSemicolon msgs) sub = true := by
  induction msgs with
  | nil => cases hm
  | cons a rest ih =>
    cases rest with
    | nil =>
      rcases List.mem_singleton.mp hm with rfl
      exact h
    | cons b rs =>
      rcases List.mem_cons.mp hm with rfl | h2
      · exact mentionsB_append_left _ _ _ (mentionsB_append_left _ _ _ h)
      · exact mentionsB_append_right _ _ _ (ih h2)

lemma mentionsB_recallMsg (x y : ℚ) : mentionsB (recallMsg x y) "recall" = true :=
  mentionsB_append_left _ _ _ (by decide)

lemma mentionsB_precisionMsg (x y : ℚ) : mentionsB (precisionMsg x y) "precision" = true :=
  mentionsB_append_left _ _ _ (by decide)

lemma mentionsB_brierMsg (x y : ℚ) : mentionsB (brierMsg x y) "brier" = true :=
  mentionsB_append_left _ _ _ (by decide)

lemma mentionsB_aucMsg (x y : ℚ) : mentionsB (aucMsg x y) "auc" = true :=
  mentionsB_append_left _ _ _ (by decide)

/-! ## Facts about compare_metrics -/

lemma compare_metrics_false_iff (chall champ : MetricsDoc) :
    (compare_metrics chall champ).1 = false ↔ reasonsList chall champ ≠ [] := by
  unfold compare_metrics
  rcases h : reasonsList chall champ with _ | ⟨a, l⟩ <;> simp [h]

lemma compare_metrics_reason (chall champ : MetricsDoc)
    (h : reasonsList chall champ ≠ []) :
    (compare_metrics chall champ).2 = joinSemicolon (reasonsList chall champ) := by
  unfold compare_metrics
  rcases hr : reasonsList chall champ with _ | ⟨a, l⟩
  · exact absurd hr h
  · simp [hr]

lemma reasonsList_ne_nil_iff (chall champ : MetricsDoc) :
    reasonsList chall champ ≠ [] ↔
      (get_metric champ "recall" 0.75 - get_metric chall "recall" 0.0 > RECALL_DELTA_MAX ∨
       get_metric champ "precision" 0.4 - get_metric chall "precision" 0.0 > PRECISION_DELTA_MAX ∨
       get_metric chall "brier_score" 1.0 - get_metric champ "brier_score" 0.15 > BRIER_DELTA_MAX ∨
       get_metric chall "roc_auc" 0.0 < get_metric champ "roc_auc" 0.8) := by
  unfold reasonsList
  by_cases h1 : get_metric champ "recall" 0.75 - get_metric chall "recall" 0.0 > RECALL_DELTA_MAX <;>
    by_cases h2 : get_metric champ "precision" 0.4 - get_metric chall "precision" 0.0 > PRECISION_DELTA_MAX <;>
      by_cases h3 : get_metric chall "brier_score" 1.0 - get_metric champ "brier_score" 0.15 > BRIER_DELTA_MAX <;>
        by_cases h4 : get_metric chall "roc_auc" 0.0 < get_metric champ "roc_auc" 0.8 <;>
          simp [h1, h2, h3, h4]

/-- C2: compare_metrics rejects exactly when one of the four guardrail
conditions fails — recall drop above the limit, precision drop above the
limit, brier increase above the limit, or strictly lower AUC — and every
failing condition contributes its message to the single returned reason
string (no short-circuiting): whenever a condition fails, the reason
mentions the corresponding metric. -/
theorem compare_metrics_guardrails (chall champ : MetricsDoc) :
    ((compare_metrics chall champ).1 = false ↔
      (get_metric champ "recall" 0.75 - get_metric chall "recall" 0.0 > RECALL_DELTA_MAX ∨
       get_metric champ "precision" 0.4 - get_metric chall "precision" 0.0 > PRECISION_DELTA_MAX ∨
       get_metric chall "brier_score" 1.0 - get_metric champ "brier_score" 0.15 > BRIER_DELTA_MAX ∨
       get_metric chall "roc_auc" 0.0 < get_metric champ "roc_auc" 0.8)) ∧
    (get_metric champ "recall" 0.75 - get_metric chall "recall" 0.0 > RECALL_DELTA_MAX →
      mentionsB (compare_metrics chall champ).2 "recall" = true) ∧
    (get_metric champ "precision" 0.4 - get_metric chall "precision" 0.0 > PRECISION_DELTA_MAX →
      mentionsB (compare_metrics chall champ).2 "precision" = true) ∧
    (get_metric chall "brier_score" 1.0 - get_metric champ "brier_score" 0.15 > BRIER_DELTA_MAX →
      mentionsB (compare_metrics chall champ).2 "brier" = true) ∧
    (get_metric chall "roc_auc" 0.0 < get_metric champ "roc_auc" 0.8 →
      mentionsB (compare_metrics chall champ).2 "auc" = true) := by
  refine ⟨(compare_metrics_false_iff chall champ).trans (reasonsList_ne_nil_iff chall champ),
    ?_, ?_, ?_, ?_⟩
  · intro hc
    have hmem : recallMsg (get_metric chall "recall" 0.0) (get_metric champ "recall" 0.75) ∈
        reasonsList chall champ := by
      unfold reasonsList
      simp [hc]
    rw [compare_metrics_reason chall champ (List.ne_nil_of_mem hmem)]
    exact mentionsB_join _ _ _ hmem (mentionsB_recallMsg _ _)
  · intro hc
    have hmem : precisionMsg (get_metric chall "precision" 0.0) (get_metric champ "precision" 0.4) ∈
        reasonsList chall champ := by
      unfold reasonsList
      simp [hc]
    rw [compare_metrics_reason chall champ (List.ne_nil_of_mem hmem)]
    exact mentionsB_join _ _ _ hmem (mentionsB_precisionMsg _ _)
  · intro hc
    have hmem : brierMsg (get_metric chall "brier_score" 1.0) (get_metric champ "brier_score" 0.15) ∈
        reasonsList chall champ := by
      unfold reasonsList
      simp [hc]
    rw [compare_metrics_reason chall champ (List.ne_nil_of_mem hmem)]
    exact mentionsB_join _ _ _ hmem (mentionsB_brierMsg _ _)
  · intro hc
    have hmem : aucMsg (get_metric chall "roc_auc" 0.0) (get_metric champ "roc_auc" 0.8) ∈
        reasonsList chall champ := by
      unfold reasonsList
      simp [hc]
    rw [compare_metrics_reason chall champ (List.ne_nil_of_mem hmem)]
    exact mentionsB_join _ _ _ hmem (mentionsB_aucMsg _ _)

/-- A challenger that violates all four guardrails at once. -/
def challFail : MetricsDoc :=
  ⟨[("recall", 0.1), ("precision", 0.1), ("roc_auc", 0.1), ("brier_score", 0.9)], none⟩

/-- A champion far stronger than `challFail`. -/
def champStrong : MetricsDoc :=
  ⟨[("recall", 0.9), ("precision", 0.9), ("roc_auc", 0.99), ("brier_score", 0.01)], none⟩

/-- Witness for C2: with all four guardrails violated simultaneously, the
comparison rejects and the one reason string mentions all four metrics. -/
theorem compare_metrics_guardrails_witness :
    (compare_metrics challFail champStrong).1 = false ∧
    mentionsB (compare_metrics challFail champStrong).2 "recall" = true ∧
    mentionsB (compare_metrics challFail champStrong).2 "precision" = true ∧
    mentionsB (compare_metrics challFail champStrong).2 "brier" = true ∧
    mentionsB (compare_metrics challFail champStrong).2 "auc" = true := by
  have h := compare_metrics_guardrails challFail champStrong
  have e1 : get_metric champStrong "recall" 0.75 = 0.9 := rfl
  have e2 : get_metric challFail "recall" 0.0 = 0.1 := rfl
  have e3 : get_metric champStrong "precision" 0.4 = 0.9 := rfl
  have e4 : get_metric challFail "precision" 0.0 = 0.1 := rfl
  have e5 : get_metric champStrong "brier_score" 0.15 = 0.01 := rfl
  have e6 : get_metric challFail "brier_score" 1.0 = 0.9 := rfl
  have e7 : get_metric champStrong "roc_auc" 0.8 = 0.99 := rfl
  have e8 : get_metric challFail "roc_auc" 0.0 = 0.1 := rfl
  have c1 : get_metric champStrong "recall" 0.75 - get_metric challFail "recall" 0.0 > RECALL_DELTA_MAX := by
    rw [e1, e2]; norm_num [RECALL_DELTA_MAX]
  have c2 : get_metric champStrong "precision" 0.4 - get_metric challFail "precision" 0.0 > PRECISION_DELTA_MAX := by
    rw [e3, e4]; norm_num [PRECISION_DELTA_MAX]
  have c3 : get_metric challFail "brier_score" 1.0 - get_metric champStrong "brier_score" 0.15 > BRIER_DELTA_MAX := by
    rw [e5, e6]; norm_num [BRIER_DELTA_MAX]
  have c4 : get_metric challFail "roc_auc" 0.0 < get_metric champStrong "roc_auc" 0.8 := by
    rw [e7, e8]; norm_num
  exact ⟨h.1.mpr (Or.inl c1), h.2.1 c1, h.2.2.1 c2, h.2.2.2.1 c3, h.2.2.2.2 c4⟩

/-- The challenger metrics of the spec's worked example. -/
def chall8 : MetricsDoc :=
  ⟨[("recall", 0.70), ("precision", 0.42), ("roc_auc", 0.82), ("brier_score", 0.14)], none⟩

/-- The champion metrics of the spec's worked example. -/
def champ8 : MetricsDoc :=
  ⟨[("recall", 0.75), ("precision", 0.40), ("roc_auc", 0.80), ("brier_score", 0.15)], none⟩

/-- C8: on the spec's worked example — challenger recall 0.70 against
champion recall 0.75 with a maximum tolerated drop of 0.02 — the comparison
rejects (the 0.05 drop exceeds 0.02) and the reason mentions "recall". -/
theorem guardrail_example_recall_drop :
    RECALL_DELTA_MAX = 0.02 ∧
    get_metric champ8 "recall" 0.75 - get_metric chall8 "recall" 0.0 = 0.05 ∧
    (compare_metrics chall8 champ8).1 = false ∧
    mentionsB (compare_metrics chall8 champ8).2 "recall" = true := by
  have h := compare_metrics_guardrails chall8 champ8
  have e1 : get_metric champ8 "recall" 0.75 = 0.75 := rfl
  have e2 : get_metric chall8 "recall" 0.0 = 0.70 := rfl
  have c1 : get_metric champ8 "recall" 0.75 - get_metric chall8 "recall" 0.0 > RECALL_DELTA_MAX := by
    rw [e1, e2]; norm_num [RECALL_DELTA_MAX]
  refine ⟨by norm_num [RECALL_DELTA_MAX], by rw [e1, e2]; norm_num, h.1.mpr (Or.inl c1), h.2.1 c1⟩

/-- The empty metrics document — what `run_training` yields when the
training step leaves no readable metrics file. -/
def emptyChallenger : MetricsDoc := ⟨[], none⟩

/-- C10: absent challenger metric keys default to worst-case values (recall,
precision and AUC to 0.0, brier to 1.0), so against any champion whose
extracted AUC is strictly positive, an empty challenger metrics document is
rejected — never silently approved. -/
theorem empty_challenger_rejected (champ : MetricsDoc)
    (h : 0 < get_metric champ "roc_auc" 0.8) :
    get_metric emptyChallenger "recall" 0.0 = 0 ∧
    get_metric emptyChallenger "precision" 0.0 = 0 ∧
    get_metric emptyChallenger "brier_score" 1.0 = 1 ∧
    get_metric emptyChallenger "roc_auc" 0.0 = 0 ∧
    (compare_metrics emptyChallenger champ).1 = false := by
  have hauc : get_metric emptyChallenger "roc_auc" 0.0 = 0 := by
    show (0.0 : ℚ) = 0
    norm_num
  have c4 : get_metric emptyChallenger "roc_auc" 0.0 < get_metric champ "roc_auc" 0.8 := by
    rw [hauc]; exact h
  refine ⟨by show (0.0 : ℚ) = 0; norm_num, by show (0.0 : ℚ) = 0; norm_num,
    by show (1.0 : ℚ) = 1; norm_num, hauc,
    (compare_metrics_guardrails emptyChallenger champ).1.mpr (Or.inr (Or.inr (Or.inr c4)))⟩

/-- A champion document with a strictly positive AUC. -/
def champPositiveAuc : MetricsDoc := ⟨[("roc_auc", 0.9)], none⟩

/-- Witness for C10 at a concrete champion document. -/
theorem empty_challenger_rejected_witness :
    0 < get_metric champPositiveAuc "roc_auc" 0.8 ∧
    (compare_metrics emptyChallenger champPositiveAuc).1 = false := by
  have h : 0 < get_metric champPositiveAuc "roc_auc" 0.8 := by
    have e : get_metric champPositiveAuc "roc_auc" 0.8 = 0.9 := rfl
    rw [e]; norm_num
  exact ⟨h, (empty_challenger_rejected champPositiveAuc h).2.2.2.2⟩

/-! ## Helper lemmas about the registry operations -/

lemma promote_champion_eq (v : String) (st : RegistryState) (now : Nat) (pb : String)
    (d : VersionDir) (m : Manifest) (hv : st.versions v = some d) (hm : d.manifest = some m) :
    promote_champion v st now pb =
      OpResult.ok
        { st with
          champion := some ⟨v, now, pb, get_champion_version st⟩
          versions := updV st.versions v
            { d with manifest := some { m with status := "champion", promoted_at := some now } } }
        [FsWrite.direct "champion.json", FsWrite.direct (v ++ "/manifest.json")] := by
  simp only [promote_champion, hv, hm]

lemma register_model_ok (v : String) (ad : ArtifactsDir) (bl : Option (List String))
    (st : RegistryState) (now : Nat) (nts pb : String)
    (h : validate_artifacts ad.files = []) :
    register_model v (some ad) bl st now nts pb =
      OpResult.ok (registerState v ad bl st now nts pb) (registerWrites v ad bl) := by
  simp [register_model, h]

lemma updV_self (f : String → Option VersionDir) (v : String) (d : VersionDir) :
    updV f v d v = some d := by
  simp [updV]

lemma updV_other (f : String → Option VersionDir) (v w : String) (d : VersionDir)
    (h : w ≠ v) : updV f v d w = f w := by
  simp [updV, h]

/-! ## C1: the single-champion invariant -/

/-- A complete, well-named artifact bundle. -/
def fullBundle : ArtifactsDir :=
  ⟨["model.joblib", "model_metadata.json", "model_signature.json", "metrics.json"], some champ8⟩

/-- register v1 on an empty registry. -/
def regRun1 : OpResult := register_model "v1" (some fullBundle) none emptyRegistry 1 "" "auto"
/-- then promote v1. -/
def regRun2 : OpResult := promote_champion "v1" regRun1.state 2 "manual"
/-- then register v2. -/
def regRun3 : OpResult := register_model "v2" (some fullBundle) none regRun2.state 3 "" "auto"
/-- then promote v2. -/
def regRun4 : OpResult := promote_champion "v2" regRun3.state 4 "manual"

/-- C1 counterexample: after the successful sequence register v1, promote
v1, register v2, promote v2, the manifests of BOTH v1 and v2 record
status="champion" — promoting v2 did not demote v1's manifest back to
"registered" — so more than one Version manifest holds status=champion, and
the champion-status manifests cannot all equal the pointer version. -/
theorem two_champions_counterexample :
    regRun1.isOk = true ∧ regRun2.isOk = true ∧ regRun3.isOk = true ∧ regRun4.isOk = true ∧
    statusOf regRun4.state "v1" = some "champion" ∧
    statusOf regRun4.state "v2" = some "champion" ∧
    get_champion_version regRun4.state = some "v2" ∧
    ("v1" : String) ≠ "v2" := by
  decide

/-- C1 (amended): promote(v) rewrites the pointer to v and sets v's own
manifest status to "champion", but leaves every other version's directory
(and hence manifest) untouched and never demotes the previous champion's
manifest — which is why several manifests can record status=champion at
once, while the pointer always names the most recently promoted version. -/
theorem promote_no_demotion (v : String) (st : RegistryState) (now : Nat) (pb : String)
    (d : VersionDir) (m : Manifest) (hv : st.versions v = some d) (hm : d.manifest = some m) :
    (promote_champion v st now pb).isOk = true ∧
    get_champion_version (promote_champion v st now pb).state = some v ∧
    statusOf (promote_champion v st now pb).state v = some "champion" ∧
    (promote_champion v st now pb).state.champion =
      some ⟨v, now, pb, get_champion_version st⟩ ∧
    (∀ w, w ≠ v → (promote_champion v st now pb).state.versions w = st.versions w) ∧
    (promote_champion v st now pb).state.rollbackLog = st.rollbackLog := by
  rw [promote_champion_eq v st now pb d m hv hm]
  refine ⟨rfl, rfl, ?_, rfl, ?_, rfl⟩
  · simp [OpResult.state, statusOf, updV_self]
  · intro w hw
    simp [OpResult.state, updV_other _ _ _ _ hw]

/-- A registry with w0 (champion-status manifest, current champion) and w1
(registered), used as a concrete input for witnesses. -/
def wManChampion : Manifest :=
  ⟨"w0", 0, "manual", "", "champion", ["model.joblib"], false, some 0, none⟩

/-- w1's registered-status manifest. -/
def wManRegistered : Manifest :=
  ⟨"w1", 0, "auto", "", "registered", ["model.joblib"], false, none, none⟩

/-- w0's directory. -/
def wDir0 : VersionDir := ⟨["model.joblib"], some wManChampion, none, []⟩

/-- w1's directory. -/
def wDir1 : VersionDir := ⟨["model.joblib"], some wManRegistered, none, []⟩

/-- A registry whose champion is w0 while w1 is merely registered. -/
def wSt : RegistryState :=
  { versions := fun x => if x = "w0" then some wDir0 else if x = "w1" then some wDir1 else none
    champion := some ⟨"w0", 0, "manual", none⟩
    rollbackLog := [] }

/-- Witness for C1 (amended) at the concrete registry `wSt`. -/
theorem promote_no_demotion_witness :
    (promote_champion "w1" wSt 5 "manual").isOk = true ∧
    get_champion_version (promote_champion "w1" wSt 5 "manual").state = some "w1" ∧
    statusOf (promote_champion "w1" wSt 5 "manual").state "w1" = some "champion" ∧
    (promote_champion "w1" wSt 5 "manual").state.champion =
      some ⟨"w1", 5, "manual", get_champion_version wSt⟩ ∧
    (∀ w, w ≠ "w1" → (promote_champion "w1" wSt 5 "manual").state.versions w = wSt.versions w) ∧
    (promote_champion "w1" wSt 5 "manual").state.rollbackLog = wSt.rollbackLog :=
  promote_no_demotion "w1" wSt 5 "manual" wDir1 wManRegistered (by decide) (by decide)

/-! ## C4: idempotence of promote -/

/-- Promoting v2 a second time, on top of the C1 run. -/
def regRun5 : OpResult := promote_champion "v2" regRun4.state 5 "manual"

/-- C4 counterexample: with v2 the current champion and previousChampion
recording v1, promoting v2 again succeeds but rewrites previousChampion to
v2 itself — the pointer's previousChampion field changes, so the repeated
promote is not idempotent beyond timestamps. -/
theorem promote_not_idempotent_counterexample :
    get_champion_version regRun4.state = some "v2" ∧
    (regRun4.state.champion.map (fun c => c.previous_champion)) = some (some "v1") ∧
    regRun5.isOk = true ∧
    (regRun5.state.champion.map (fun c => c.previous_champion)) = some (some "v2") ∧
    (some (some "v2") : Option (Option String)) ≠ some (some "v1") := by
  decide

/-- C4 (amended): promoting the already-current champion v again leaves the
rollback log and every other version untouched, refreshes v's manifest
(status re-set to "champion", promoted_at updated), and rewrites the pointer
with previousChampion set to v itself — so previousChampion is NOT preserved
whenever it previously recorded a different version; only timestamps, v's
manifest refresh and this previousChampion rewrite distinguish the states. -/
theorem promote_current_champion (v : String) (st : RegistryState) (now : Nat) (pb : String)
    (d : VersionDir) (m : Manifest) (hc : get_champion_version st = some v)
    (hv : st.versions v = some d) (hm : d.manifest = some m) :
    (promote_champion v st now pb).isOk = true ∧
    (promote_champion v st now pb).state.champion = some ⟨v, now, pb, some v⟩ ∧
    (∀ w, w ≠ v → (promote_champion v st now pb).state.versions w = st.versions w) ∧
    (promote_champion v st now pb).state.versions v =
      some { d with manifest := some { m with status := "champion", promoted_at := some now } } ∧
    (promote_champion v st now pb).state.rollbackLog = st.rollbackLog := by
  rw [promote_champion_eq v st now pb d m hv hm]
  refine ⟨rfl, ?_, ?_, ?_, rfl⟩
  · simp [OpResult.state, hc]
  · intro w hw
    simp [OpResult.state, updV_other _ _ _ _ hw]
  · simp [OpResult.state, updV_self]

/-- A registry whose current champion is w1 with previousChampion w0. -/
def wStC : RegistryState :=
  { versions := fun x => if x = "w0" then some wDir0 else if x = "w1" then some wDir1 else none
    champion := some ⟨"w1", 0, "manual", some "w0"⟩
    rollbackLog := [] }

/-- Witness for C4 (amended): re-promoting the current champion w1 of `wStC`
rewrites previousChampion to w1. -/
theorem promote_current_champion_witness :
    (promote_champion "w1" wStC 5 "manual").isOk = true ∧
    (promote_champion "w1" wStC 5 "manual").state.champion =
      some ⟨"w1", 5, "manual", some "w1"⟩ ∧
    (∀ w, w ≠ "w1" → (promote_champion "w1" wStC 5 "manual").state.versions w = wStC.versions w) ∧
    (promote_champion "w1" wStC 5 "manual").state.versions "w1" =
      some { wDir1 with manifest := some { wManRegistered with status := "champion", promoted_at := some 5 } } ∧
    (promote_champion "w1" wStC 5 "manual").state.rollbackLog = wStC.rollbackLog :=
  promote_current_champion "w1" wStC 5 "manual" wDir1 wManRegistered (by decide) (by decide) (by decide)

/-! ## C5: the rollbackTo contract -/

/-- C5: rollback_to(id, reason) (a) fails with VersionNotFound — mutating
nothing and writing nothing — when id has no version directory; (b) is an
informational no-op (success, no state change, no write, no rollback-log
entry) when id already is the current champion; (c) otherwise appends
exactly one RollbackLogEntry carrying (timestamp, from_version, to_version,
reason) and changes the champion by delegating to the ordinary
promote_champion with promoted_by = "rollback: " + reason. -/
theorem rollback_to_contract (id : String) (st : RegistryState) (now : Nat) (rsn : String) :
    (st.versions id = none →
      rollback_to id st now rsn = OpResult.err (RegErr.versionNotFound id) st []) ∧
    ((st.versions id).isSome = true → get_champion_version st = some id →
      rollback_to id st now rsn = OpResult.ok st []) ∧
    (∀ d m, st.versions id = some d → d.manifest = some m →
      get_champion_version st ≠ some id →
      (rollback_to id st now rsn).isOk = true ∧
      (rollback_to id st now rsn).state.rollbackLog =
        st.rollbackLog ++ [⟨now, get_champion_version st, id, rsn⟩] ∧
      get_champion_version (rollback_to id st now rsn).state = some id ∧
      rollback_to id st now rsn =
        OpResult.ok
          (promote_champion id
            { st with rollbackLog := st.rollbackLog ++ [⟨now, get_champion_version st, id, rsn⟩] }
            now ("rollback: " ++ rsn)).state
          (FsWrite.direct ("rollback/rollback_" ++ toString now ++ ".json") ::
            (promote_champion id
              { st with rollbackLog := st.rollbackLog ++ [⟨now, get_champion_version st, id, rsn⟩] }
              now ("rollback: " ++ rsn)).writes)) := by
  refine ⟨?_, ?_, ?_⟩
  · intro h
    simp only [rollback_to, h]
  · intro h1 h2
    rw [Option.isSome_iff_exists] at h1
    obtain ⟨d, hd⟩ := h1
    simp only [rollback_to, hd]
    rw [if_pos h2]
  · intro d m hv hm hne
    have hv1 : ({ st with rollbackLog := st.rollbackLog ++ [⟨now, get_champion_version st, id, rsn⟩] } : RegistryState).versions id = some d := hv
    have hp := promote_champion_eq id
      { st with rollbackLog := st.rollbackLog ++ [⟨now, get_champion_version st, id, rsn⟩] }
      now ("rollback: " ++ rsn) d m hv1 hm
    simp only [rollback_to, hv]
    rw [if_neg hne, hp]
    exact ⟨rfl, rfl, rfl, rfl⟩

/-- Witness for C5: the three branches of the contract at the concrete
registries `wSt` (champion w0, registered w1) and `wStC` (champion w1). -/
theorem rollback_to_contract_witness :
    (rollback_to "ghost" wSt 7 "drift" = OpResult.err (RegErr.versionNotFound "ghost") wSt []) ∧
    (rollback_to "w1" wStC 7 "drift" = OpResult.ok wStC []) ∧
    ((rollback_to "w1" wSt 7 "drift").isOk = true ∧
      (rollback_to "w1" wSt 7 "drift").state.rollbackLog =
        wSt.rollbackLog ++ [⟨7, get_champion_version wSt, "w1", "drift"⟩] ∧
      get_champion_version (rollback_to "w1" wSt 7 "drift").state = some "w1") := by
  refine ⟨(rollback_to_contract "ghost" wSt 7 "drift").1 (by decide),
    (rollback_to_contract "w1" wStC 7 "drift").2.1 (by decide) (by decide), ?_⟩
  have h := (rollback_to_contract "w1" wSt 7 "drift").2.2 wDir1 wManRegistered
    (by decide) (by decide) (by decide)
  exact ⟨h.1, h.2.1, h.2.2.1⟩

/-! ## C9: mechanism of the pointer and manifest writes -/

lemma promote_writes_no_temp (v : String) (st : RegistryState) (now : Nat) (pb : String) :
    ((promote_champion v st now pb).writes.all (fun w => !w.isTempRename)) = true := by
  cases hv : st.versions v with
  | none => simp [promote_champion, hv, OpResult.writes]
  | some d =>
    cases hm : d.manifest with
    | none => simp [promote_champion, hv, hm, OpResult.writes]
    | some m => simp [promote_champion, hv, hm, OpResult.writes, FsWrite.isTempRename]

lemma register_writes_no_temp (v : String) (ad : ArtifactsDir) (bl : Option (List String)) :
    ((registerWrites v ad bl).all (fun w => !w.isTempRename)) = true := by
  simp only [registerWrites, List.all_append, Bool.and_eq_true]
  refine ⟨⟨?_, ?_⟩, by simp [FsWrite.isTempRename]⟩
  · rw [List.all_eq_true]
    intro w hw
    rw [List.mem_map] at hw
    obtain ⟨n, _, rfl⟩ := hw
    rfl
  · rw [List.all_eq_true]
    intro w hw
    rw [List.mem_map] at hw
    obtain ⟨n, _, rfl⟩ := hw
    rfl

lemma register_model_writes_no_temp (v : String) (ad : Option ArtifactsDir)
    (bl : Option (List String)) (st : RegistryState) (now : Nat) (nts pb : String) :
    ((register_model v ad bl st now nts pb).writes.all (fun w => !w.isTempRename)) = true := by
  cases ad with
  | none => simp [register_model, OpResult.writes]
  | some a =>
    cases h : (validate_artifacts a.files).isEmpty with
    | false => simp [register_model, h, OpResult.writes]
    | true => simp [register_model, h, OpResult.writes, register_writes_no_temp]

lemma rollback_writes_no_temp (v : String) (st : RegistryState) (now : Nat) (rsn : String) :
    ((rollback_to v st now rsn).writes.all (fun w => !w.isTempRename)) = true := by
  cases hv : st.versions v with
  | none => simp [rollback_to, hv, OpResult.writes]
  | some d =>
    by_cases hc : get_champion_version st = some v
    · simp only [rollback_to, hv]
      rw [if_pos hc]
      rfl
    · simp only [rollback_to, hv]
      rw [if_neg hc]
      cases hp : promote_champion v
          { st with rollbackLog := st.rollbackLog ++ [⟨now, get_champion_version st, v, rsn⟩] }
          now ("rollback: " ++ rsn) with
      | ok st2 ws =>
        have := promote_writes_no_temp v
          { st with rollbackLog := st.rollbackLog ++ [⟨now, get_champion_version st, v, rsn⟩] }
          now ("rollback: " ++ rsn)
        rw [hp] at this
        simpa [OpResult.writes, FsWrite.isTempRename] using this
      | err e st2 ws =>
        have := promote_writes_no_temp v
          { st with rollbackLog := st.rollbackLog ++ [⟨now, get_champion_version st, v, rsn⟩] }
          now ("rollback: " ++ rsn)
        rw [hp] at this
        simpa [OpResult.writes, FsWrite.isTempRename] using this

/-- C9 counterexample: promoting w1 on the concrete registry `wSt` writes
the ChampionPointer file and the manifest by direct in-place writes — the
write trace is exactly two `direct` writes, contains a direct write of
champion.json, and contains no temp-file-and-rename write at all — refuting
the claim that every pointer/manifest write goes through a temporary file
and a rename. -/
theorem pointer_write_not_atomic_counterexample :
    (promote_champion "w1" wSt 5 "manual").writes =
      [FsWrite.direct "champion.json", FsWrite.direct ("w1" ++ "/manifest.json")] ∧
    FsWrite.direct "champion.json" ∈ (promote_champion "w1" wSt 5 "manual").writes ∧
    ((promote_champion "w1" wSt 5 "manual").writes.all (fun w => !w.isTempRename)) = true := by
  decide

/-- C9 (amended): every file write any registry operation performs — the
artifact copies, the manifest writes of register, the champion.json and
manifest writes of promote, and the rollback-log and delegated writes of
rollback — is a plain copy or an in-place `open(path, "w")` write; no
operation ever writes via a temporary file renamed into place, and a
successful promote writes champion.json and the version's manifest
directly. -/
theorem registry_writes_in_place (v : String) (ad : Option ArtifactsDir)
    (bl : Option (List String)) (st : RegistryState) (now : Nat) (nts pb rsn : String) :
    ((register_model v ad bl st now nts pb).writes.all (fun w => !w.isTempRename)) = true ∧
    ((promote_champion v st now pb).writes.all (fun w => !w.isTempRename)) = true ∧
    ((rollback_to v st now rsn).writes.all (fun w => !w.isTempRename)) = true ∧
    ((promote_champion v st now pb).isOk = true →
      FsWrite.direct "champion.json" ∈ (promote_champion v st now pb).writes ∧
      FsWrite.direct (v ++ "/manifest.json") ∈ (promote_champion v st now pb).writes) := by
  refine ⟨register_model_writes_no_temp v ad bl st now nts pb,
    promote_writes_no_temp v st now pb, rollback_writes_no_temp v st now rsn, ?_⟩
  intro hok
  cases hv : st.versions v with
  | none => rw [promote_champion] at hok; simp [hv, OpResult.isOk] at hok
  | some d =>
    cases hm : d.manifest with
    | none => rw [promote_champion] at hok; simp [hv, hm, OpResult.isOk] at hok
    | some m =>
      rw [promote_champion_eq v st now pb d m hv hm]
      simp [OpResult.writes]

/-- Witness for C9 (amended): the successful promote on `wSt` indeed wrote
champion.json and the manifest (directly). -/
theorem registry_writes_in_place_witness :
    FsWrite.direct "champion.json" ∈ (promote_champion "w1" wSt 5 "manual").writes ∧
    FsWrite.direct ("w1" ++ "/manifest.json") ∈ (promote_champion "w1" wSt 5 "manual").writes :=
  (registry_writes_in_place "w1" (some fullBundle) none wSt 5 "" "manual" "r").2.2.2 (by decide)

/-! ## C3: bundle validation and partial storage -/

/-- A source directory holding metadata, signature and metrics but no model
file under any name. -/
def c3Dir : ArtifactsDir :=
  ⟨["model_metadata.json", "model_signature.json", "metrics.json"], some emptyChallenger⟩

/-- Registering the model-less bundle. -/
def c3Run : OpResult := register_model "v1" (some c3Dir) none emptyRegistry 1 "" "auto"

/-- C3: a bundle whose model artifact is missing under every accepted name
(neither model.joblib nor model_v1.joblib is present, nor any file starting
with "model" other than the metadata/signature documents themselves) passes
validate_artifacts — the glob fallback `model*` is satisfied by
model_metadata.json — so register_model succeeds and creates a version
directory whose stored artifacts are a strict subset of the four required
ones (no model file at all), contradicting the claim that such a bundle is
rejected with IncompleteBundle and never partially stored. -/
theorem register_partial_bundle_bug :
    (c3Dir.files.contains "model.joblib") = false ∧
    (c3Dir.files.contains "model_v1.joblib") = false ∧
    validate_artifacts c3Dir.files = [] ∧
    c3Run.isOk = true ∧
    ((c3Run.state.versions "v1").map (fun d => d.files)) =
      some ["model_metadata.json", "model_signature.json", "metrics.json"] ∧
    (((c3Run.state.versions "v1").bind (fun d => d.manifest)).map (fun m => m.artifacts)) =
      some ["model_metadata.json", "model_signature.json", "metrics.json"] ∧
    statusOf c3Run.state "v1" = some "registered" := by
  decide

/-! ## C7: first-model automatic approval -/

/-- Did the retrain call return normally (no exception)? -/
def retrainOk? (r : Except RetrainErr RetrainResult) : Bool :=
  match r with
  | .ok _ => true
  | .error _ => false

/-- The boolean the Python retrain returned, when it returned. -/
def retrainPromoted? (r : Except RetrainErr RetrainResult) : Option Bool :=
  match r with
  | .ok res => some res.promoted
  | .error _ => none

/-- The guardrail verdict of the cycle, when it returned. -/
def retrainApproved? (r : Except RetrainErr RetrainResult) : Option Bool :=
  match r with
  | .ok res => some res.approved
  | .error _ => none

/-- The reason string of the cycle, when it returned. -/
def retrainReason? (r : Except RetrainErr RetrainResult) : Option String :=
  match r with
  | .ok res => some res.reason
  | .error _ => none

/-- The environment of a successful training run over a complete bundle. -/
def env7 : RetrainEnv := ⟨none, 1000, Except.ok fullBundle, none⟩

/-- A first retrain cycle on an empty registry. -/
def c7Run : Except RetrainErr RetrainResult := retrain "v1" env7 emptyRegistry 3 false false

/-- C7 counterexample: on an empty registry the cycle auto-approves and
promotes, but its reason string is the source's literal
"Primeiro modelo (sem champion para comparar)", not the
"no champion to compare" the claim states. -/
theorem first_model_reason_counterexample :
    retrainOk? c7Run = true ∧
    retrainApproved? c7Run = some true ∧
    retrainPromoted? c7Run = some true ∧
    retrainReason? c7Run = some "Primeiro modelo (sem champion para comparar)" ∧
    retrainReason? c7Run ≠ some "no champion to compare" := by
  decide

/-- C7 (amended): whenever no champion metrics document can be loaded (no
pointer, no champion directory, or no metrics.json in it), the verdict of
the cycle is automatic approval with the source's literal reason
"Primeiro modelo (sem champion para comparar)" — no metric comparison takes
place — and a cycle over a valid bundle registers and promotes the
challenger. -/
theorem first_model_auto_approval (v : String) (env : RetrainEnv) (st : RegistryState)
    (now : Nat) (f : Bool) (ad : ArtifactsDir)
    (hval : env.dataValidation = none) (htr : env.training = Except.ok ad)
    (hch : load_champion_metrics st = none) (hok : validate_artifacts ad.files = []) :
    retrain_verdict st (run_training_metrics ad) = (true, firstModelReason) ∧
    retrainOk? (retrain v env st now false f) = true ∧
    retrainPromoted? (retrain v env st now false f) = some true ∧
    retrainApproved? (retrain v env st now false f) = some true ∧
    retrainReason? (retrain v env st now false f) = some firstModelReason := by
  have hverd : retrain_verdict st (run_training_metrics ad) = (true, firstModelReason) := by
    unfold retrain_verdict
    rw [hch]
  have hreg := register_model_ok v ad env.baseline st now firstModelReason "retrain_pipeline" hok
  have hpro := promote_champion_eq v
    (registerState v ad env.baseline st now firstModelReason "retrain_pipeline")
    now "retrain_pipeline"
    (registeredDir v ad env.baseline now firstModelReason "retrain_pipeline")
    (registeredManifest v ad env.baseline now firstModelReason "retrain_pipeline")
    (updV_self _ _ _) rfl
  refine ⟨hverd, ?_, ?_, ?_, ?_⟩ <;>
    simp [retrain, hval, htr, hverd, hreg, hpro, retrainOk?, retrainPromoted?,
      retrainApproved?, retrainReason?]

/-- Witness for C7 (amended) at the concrete empty registry. -/
theorem first_model_auto_approval_witness :
    retrain_verdict emptyRegistry (run_training_metrics fullBundle) = (true, firstModelReason) ∧
    retrainOk? (retrain "v1" env7 emptyRegistry 3 false false) = true ∧
    retrainPromoted? (retrain "v1" env7 emptyRegistry 3 false false) = some true ∧
    retrainApproved? (retrain "v1" env7 emptyRegistry 3 false false) = some true ∧
    retrainReason? (retrain "v1" env7 emptyRegistry 3 false false) = some firstModelReason :=
  first_model_auto_approval "v1" env7 emptyRegistry 3 false fullBundle rfl rfl
    (by decide) (by decide)

/-! ## C6: exit status of a guardrail rejection -/

lemma retrain_rejected_path (v : String) (env : RetrainEnv) (st : RegistryState) (now : Nat)
    (ad : ArtifactsDir) (hval : env.dataValidation = none) (htr : env.training = Except.ok ad)
    (hok : validate_artifacts ad.files = [])
    (hv1 : (retrain_verdict st (run_training_metrics ad)).1 = false) :
    retrain v env st now false false =
      Except.ok ⟨false, false, (retrain_verdict st (run_training_metrics ad)).2,
        markRejected
          (registerState v ad env.baseline st now (retrain_verdict st (run_training_metrics ad)).2 "retrain_pipeline")
          v (retrain_verdict st (run_training_metrics ad)).2⟩ := by
  have hreg := register_model_ok v ad env.baseline st now
    (retrain_verdict st (run_training_metrics ad)).2 "retrain_pipeline" hok
  simp [retrain, hval, htr, hreg, hv1]

/-- The challenger of the rejection scenario: a complete bundle whose
metrics violate every guardrail against champ8. -/
def badBundle : ArtifactsDir :=
  ⟨["model.joblib", "model_metadata.json", "model_signature.json", "metrics.json"], some challFail⟩

/-- The environment of the rejection scenario. -/
def env6 : RetrainEnv := ⟨none, 1000, Except.ok badBundle, none⟩

lemma c6_verdict_false :
    (retrain_verdict regRun2.state (run_training_metrics badBundle)).1 = false := by
  have hv : retrain_verdict regRun2.state (run_training_metrics badBundle) =
      compare_metrics challFail champ8 := rfl
  rw [hv, compare_metrics_false_iff, reasonsList_ne_nil_iff]
  left
  have e1 : get_metric champ8 "recall" 0.75 = 0.75 := rfl
  have e2 : get_metric challFail "recall" 0.0 = 0.1 := rfl
  rw [e1, e2]
  norm_num [RECALL_DELTA_MAX]

/-- A full rejected cycle: champion v1 (metrics champ8), challenger with
challFail metrics, no --force, no dry run. -/
def c6Run : Except RetrainErr RetrainResult := retrain "v2" env6 regRun2.state 9 false false

/-- C6 counterexample: a guardrail rejection without --force returns
normally (no exception) with was-promoted = false, but the CLI exits with
status 1, not 0 — refuting the claim that such a run exits 0 and that only
the error taxonomy produces a non-zero exit. -/
theorem guardrail_rejection_exit_counterexample :
    retrainOk? c6Run = true ∧
    retrainApproved? c6Run = some false ∧
    retrainPromoted? c6Run = some false ∧
    retrain_cli_exit c6Run = 1 ∧
    retrain_cli_exit c6Run ≠ 0 := by
  have heq := retrain_rejected_path "v2" env6 regRun2.state 9 badBundle rfl rfl
    (by decide) c6_verdict_false
  have hc : c6Run = Except.ok ⟨false, false, (retrain_verdict regRun2.state (run_training_metrics badBundle)).2,
      markRejected (registerState "v2" badBundle env6.baseline regRun2.state 9 (retrain_verdict regRun2.state (run_training_metrics badBundle)).2 "retrain_pipeline") "v2" (retrain_verdict regRun2.state (run_training_metrics badBundle)).2⟩ := heq
  rw [hc]
  exact ⟨rfl, rfl, rfl, rfl, by decide⟩

/-- C6 (amended): the retrain CLI exits 0 exactly when the retrain call
returned true (challenger promoted, or approved in a dry run); a guardrail
rejection without --force does not raise — the cycle returns normally with
was-promoted = false — but the CLI then exits with status 1, the same
non-zero outcome as the error taxonomy, not 0. -/
theorem retrain_exit_code (v : String) (env : RetrainEnv) (st : RegistryState)
    (now : Nat) (dr f : Bool) :
    (retrain_cli_exit (retrain v env st now dr f) = 0 ↔
      retrainPromoted? (retrain v env st now dr f) = some true) ∧
    (∀ ad, env.dataValidation = none → env.training = Except.ok ad →
      validate_artifacts ad.files = [] →
      (retrain_verdict st (run_training_metrics ad)).1 = false → dr = false → f = false →
      retrainOk? (retrain v env st now dr f) = true ∧
      retrainPromoted? (retrain v env st now dr f) = some false ∧
      retrainApproved? (retrain v env st now dr f) = some false ∧
      retrain_cli_exit (retrain v env st now dr f) = 1) := by
  constructor
  · rcases hr : retrain v env st now dr f with e | res
    · simp [retrain_cli_exit, retrainPromoted?]
    · cases hb : res.promoted <;>
        simp [retrain_cli_exit, retrainPromoted?, hb]
  · intro ad h1 h2 h3 h4 hdr hf
    subst hdr
    subst hf
    rw [retrain_rejected_path v env st now ad h1 h2 h3 h4]
    exact ⟨rfl, rfl, rfl, rfl⟩

/-- Witness for C6 (amended) at the concrete rejection scenario. -/
theorem retrain_exit_code_witness :
    retrainOk? (retrain "v2" env6 regRun2.state 9 false false) = true ∧
    retrainPromoted? (retrain "v2" env6 regRun2.state 9 false false) = some false ∧
    retrainApproved? (retrain "v2" env6 regRun2.state 9 false false) = some false ∧
    retrain_cli_exit (retrain "v2" env6 regRun2.state 9 false false) = 1 :=
  (retrain_exit_code "v2" env6 regRun2.state 9 false false).2 badBundle rfl rfl
    (by decide) c6_verdict_false rfl rfl

end Datathon
